import Mathlib

/-!
Verification of the "Generation Orchestration & Quota Core" of nano-banana-lab.

The development shallowly embeds three Python modules:

* `src/services/generator.py` — the retry-with-backoff wrapper
  (`ImageGenerator._execute_with_retry`, `is_retryable_error`, the
  `RETRY_DELAYS` schedule);
* `src/services/generation_state.py` — the per-session generation state
  machine (`GenerationStateManager`);
* `src/services/trial_quota.py` — the trial quota ledger
  (`TrialQuotaService.check_quota`, `consume_quota`, `get_mode_key`,
  session-fallback load/save with day rollover).

Modelling conventions: wall-clock timestamps and progress fractions are
rationals; Python ints are `Int`; Python dicts keyed by strings are
association lists; `st.session_state` is passed explicitly, each operation
returning its result together with the new session state; the
nondeterministic `uuid` and `time.time()` values are input parameters.
-/

/- ### Python `needle in hay` on strings (case handled by `String.toLower`) -/

/-- `leadEq n h` holds when the char list `n` is a leading segment of `h`. -/
def leadEq : List Char → List Char → Bool
  | [], _ => true
  | _ :: _, [] => false
  | a :: as, b :: bs => a == b && leadEq as bs

/-- `subIn n h`: the char list `n` occurs contiguously inside `h`. -/
def subIn (needle : List Char) : List Char → Bool
  | [] => needle.isEmpty
  | b :: bs => leadEq needle (b :: bs) || subIn needle bs

/-- Python's `needle in hay` for strings. -/
def pyIn (needle hay : String) : Bool :=
  subIn needle.data hay.data

/-- Python's `str.lower()` (ASCII case folding, as in the error keywords). -/
def pyLower (s : String) : String :=
  ⟨s.data.map Char.toLower⟩

/- ### Retry wrapper (src/services/generator.py) -/

/-- `MAX_RETRIES` from generator.py line 38. -/
def MAX_RETRIES : Nat := 3

/-- `RETRY_DELAYS` from generator.py line 39: backoff delays in seconds. -/
def RETRY_DELAYS : List Nat := [2, 4, 8]

/-- `RETRYABLE_ERRORS` from generator.py lines 42-53. -/
def RETRYABLE_ERRORS : List String :=
  ["server disconnected", "connection reset", "connection refused",
   "timeout", "network", "unavailable", "overloaded", "503", "502", "504"]

/-- `is_retryable_error` from generator.py lines 66-69: case-insensitive
keyword containment. -/
def is_retryable_error (error_msg : String) : Bool :=
  RETRYABLE_ERRORS.any (fun keyword => pyIn keyword (pyLower error_msg))

/-- The inline safety test of `_execute_with_retry` (generator.py line 256):
`"safety" in error_msg.lower() or "blocked" in error_msg.lower()`. -/
def isSafetyMsg (error_msg : String) : Bool :=
  pyIn "safety" (pyLower error_msg) || pyIn "blocked" (pyLower error_msg)

/-- Outcome of one invocation of the wrapped `api_call`: either a response
(opaque, numbered) or a raised exception carrying a message string. -/
inductive CallOutcome where
  | success (response : Nat)
  | failure (msg : String)

/-- Observable behaviour of one run of `_execute_with_retry`: how many times
`api_call` was invoked, the `time.sleep` delays performed between attempts,
the returned `(response, last_error)` pair and the fields the wrapper wrote
into its `GenerationResult`. -/
structure RetryTrace where
  numCalls : Nat
  sleeps : List Nat
  response : Option Nat
  lastError : Option String
  safety_blocked : Bool
  result_error : Option String
  deriving DecidableEq

/-- The attempt loop of `_execute_with_retry` (generator.py lines 244-275).
`attempt` is the Python loop counter; `fuel` is the number of loop
iterations still available (`MAX_RETRIES + 1 - attempt`), which makes the
recursion structural.  The wrapped callable is modelled as a map from the
attempt number to that invocation's outcome. -/
def runRetry (f : Nat → CallOutcome) : Nat → Nat → RetryTrace
  | _, 0 =>
    -- The Python `for` loop can only exhaust by `break`, handled below;
    -- with the initial fuel this case is unreachable.
    { numCalls := 0, sleeps := [], response := none, lastError := none,
      safety_blocked := false, result_error := none }
  | attempt, fuel + 1 =>
    match f attempt with
    | .success r =>
      -- `return response, None`
      { numCalls := 1, sleeps := [], response := some r, lastError := none,
        safety_blocked := false, result_error := none }
    | .failure error_msg =>
      if isSafetyMsg error_msg then
        -- safety-related: mark the result and return without retrying
        { numCalls := 1, sleeps := [], response := none,
          lastError := some error_msg, safety_blocked := true,
          result_error := some "Content blocked by safety filter" }
      else if is_retryable_error error_msg && decide (attempt < MAX_RETRIES) then
        -- sleep RETRY_DELAYS[attempt] and continue with the next attempt
        let rest := runRetry f (attempt + 1) fuel
        { rest with numCalls := rest.numCalls + 1,
                    sleeps := RETRY_DELAYS.getD attempt 0 :: rest.sleeps }
      else
        -- non-retryable error or max retries reached: break, return None
        { numCalls := 1, sleeps := [], response := none,
          lastError := some error_msg, safety_blocked := false,
          result_error := none }

/-- `_execute_with_retry`: run the loop from attempt 0 with
`MAX_RETRIES + 1` iterations available. -/
def execute_with_retry (f : Nat → CallOutcome) : RetryTrace :=
  runRetry f 0 (MAX_RETRIES + 1)

example : is_retryable_error "Server TIMEOUT while connecting" = true := by decide
example : is_retryable_error "invalid api key" = false := by decide
example : isSafetyMsg "Content BLOCKED by policy" = true := by decide
example :
    (execute_with_retry (fun _ => CallOutcome.failure "timeout")).numCalls = 4 := by
  decide
example :
    (execute_with_retry (fun _ => CallOutcome.failure "timeout")).sleeps = [2, 4, 8] := by
  decide
example :
    (execute_with_retry (fun _ => CallOutcome.failure "safety violation")).numCalls = 1 := by
  decide

/- ### Retry theorems -/

/-- Claim C2 (amended).  A callable that on every invocation raises an error
whose message matches a retryable keyword and contains no safety/blocked
keyword is invoked exactly `MAX_RETRIES + 1` (= 4) times, after which the
wrapper returns no response and the last error message, without marking a
safety block.  A callable whose first invocation raises an error containing
a safety/blocked keyword is invoked exactly once, `safety_blocked` is set,
and no response is returned. -/
theorem retry_bound_amended (f : Nat → CallOutcome) (m : Nat → String)
    (hf : ∀ n, f n = CallOutcome.failure (m n))
    (hr : ∀ n, is_retryable_error (m n) = true)
    (hs : ∀ n, isSafetyMsg (m n) = false) :
    ((execute_with_retry f).numCalls = MAX_RETRIES + 1 ∧
     (execute_with_retry f).response = none ∧
     (execute_with_retry f).lastError = some (m MAX_RETRIES) ∧
     (execute_with_retry f).safety_blocked = false) ∧
    (∀ (g : Nat → CallOutcome) (msg : String), g 0 = CallOutcome.failure msg →
      isSafetyMsg msg = true →
      (execute_with_retry g).numCalls = 1 ∧
      (execute_with_retry g).safety_blocked = true ∧
      (execute_with_retry g).response = none) := by
  constructor
  · simp [execute_with_retry, runRetry, hf, hr, hs, MAX_RETRIES]
  · intro g msg hg hsm
    simp [execute_with_retry, runRetry, hg, hsm]

/-- Witness for `retry_bound_amended` at two concrete callables. -/
theorem retry_bound_amended_witness :
    (execute_with_retry (fun _ => CallOutcome.failure "connection reset")).numCalls = 4 ∧
    (execute_with_retry (fun _ => CallOutcome.failure "safety violation")).numCalls = 1 := by
  have hret : is_retryable_error "connection reset" = true := by decide
  have hsaf : isSafetyMsg "connection reset" = false := by decide
  have hs2 : isSafetyMsg "safety violation" = true := by decide
  have h := retry_bound_amended (fun _ => CallOutcome.failure "connection reset")
    (fun _ => "connection reset") (fun _ => rfl) (fun _ => hret) (fun _ => hsaf)
  exact ⟨h.1.1,
    (h.2 (fun _ => CallOutcome.failure "safety violation") "safety violation" rfl hs2).1⟩

/-- Counterexample to claim C2 as stated: the message "timeout blocked"
matches the retryable keyword "timeout" on every invocation, yet the wrapper
invokes the callable only once (the safety/blocked test runs first), not
`MAX_RETRIES + 1` times. -/
theorem retry_bound_counterexample :
    is_retryable_error "timeout blocked" = true ∧
    (∀ n : Nat, (fun _ : Nat => CallOutcome.failure "timeout blocked") n =
        CallOutcome.failure "timeout blocked") ∧
    ¬ (execute_with_retry (fun _ => CallOutcome.failure "timeout blocked")).numCalls =
        MAX_RETRIES + 1 := by
  refine ⟨by decide, fun _ => rfl, by decide⟩

/-- The sleep delays recorded by the loop starting at a given attempt form an
initial segment of the schedule entries from that attempt on. -/
theorem runRetry_sleeps_prefix (f : Nat → CallOutcome) :
    ∀ fuel attempt, (runRetry f attempt fuel).sleeps =
      (RETRY_DELAYS.drop attempt).take (runRetry f attempt fuel).sleeps.length := by
  intro fuel
  induction fuel with
  | zero => intro a; simp [runRetry]
  | succ n ih =>
    intro a
    simp only [runRetry]
    cases f a with
    | success r => simp
    | failure msg =>
      cases h1 : isSafetyMsg msg with
      | true => simp [h1]
      | false =>
        simp only [h1, Bool.false_eq_true, if_false]
        cases h2 : (is_retryable_error msg && decide (a < MAX_RETRIES)) with
        | false => simp [h2]
        | true =>
          simp only [h2, if_true]
          have ha : a < 3 := by
            have h3 := (Bool.and_eq_true _ _).mp h2
            simpa [MAX_RETRIES] using of_decide_eq_true h3.2
          have hdrop : RETRY_DELAYS.drop a =
              RETRY_DELAYS.getD a 0 :: RETRY_DELAYS.drop (a + 1) := by
            interval_cases a <;> rfl
          simp only [hdrop, List.length_cons, List.take_succ_cons]
          exact congrArg _ (ih (a + 1))

/-- Claim C7: every wait the retry wrapper performs follows the fixed
backoff schedule — for any callable, the list of sleep delays is an initial
segment of `RETRY_DELAYS = [2, 4, 8]`, so the delay before retry number n
is the n-th schedule entry (2s, then 4s, then 8s). -/
theorem backoff_schedule (f : Nat → CallOutcome) :
    (execute_with_retry f).sleeps =
      RETRY_DELAYS.take (execute_with_retry f).sleeps.length := by
  have h := runRetry_sleeps_prefix f (MAX_RETRIES + 1) 0
  simpa [execute_with_retry] using h

/- ### Generation state machine (src/services/generation_state.py) -/

/-- `GenerationStatus` enum (generation_state.py lines 15-22). -/
inductive GenerationStatus where
  | idle | pending | generating | completed | cancelled | failed
  deriving DecidableEq

/-- `GenerationTask` dataclass (generation_state.py lines 25-39).
Timestamps and the progress fraction are rationals; the result payload is an
opaque number. -/
structure GenerationTask where
  task_id : String
  prompt : String
  mode : String
  status : GenerationStatus
  created_at : ℚ
  started_at : Option ℚ
  completed_at : Option ℚ
  progress : ℚ
  estimated_duration : ℚ
  error : Option String
  result : Option Nat
  cancelled : Bool
  deriving DecidableEq

/-- The three `gen_state_*` keys of `st.session_state`
(`init_session_state`, generation_state.py lines 64-75).  Every read of
these keys in the module uses `.get` with the same defaults that
`init_session_state` writes, so a session is modelled by the observed
values, with absent keys identified with their defaults. -/
structure GenSessionState where
  current_task : Option GenerationTask
  generation_history : List GenerationTask
  is_generating : Bool
  deriving DecidableEq

/-- The freshly initialized session (`init_session_state` defaults). -/
def initGenSession : GenSessionState :=
  { current_task := none, generation_history := [], is_generating := false }

/-- `ESTIMATED_TIMES.get(resolution, 10.0)` (generation_state.py lines
49-53 and 132). -/
def ESTIMATED_TIMES (resolution : String) : ℚ :=
  if resolution = "1K" then 8
  else if resolution = "2K" then 12
  else if resolution = "4K" then 18
  else 10

/-- `can_start_generation` (generation_state.py lines 86-100): returns
`(can_start, reason)`; only reads the session, returned unchanged. -/
def can_start_generation (s : GenSessionState) : (Bool × String) × GenSessionState :=
  if s.is_generating then ((false, "generation_in_progress"), s)
  else ((true, ""), s)

/-- `start_generation` (generation_state.py lines 102-138).  The uuid-based
`task_id` and the clock value `now` are inputs. -/
def start_generation (prompt mode resolution task_id : String) (now : ℚ)
    (s : GenSessionState) : Option GenerationTask × GenSessionState :=
  let cs := can_start_generation s
  if cs.1.1 then
    let task : GenerationTask :=
      { task_id := task_id, prompt := prompt, mode := mode,
        status := GenerationStatus.generating,
        created_at := now, started_at := some now, completed_at := none,
        progress := 0, estimated_duration := ESTIMATED_TIMES resolution,
        error := none, result := none, cancelled := false }
    (some task, { cs.2 with current_task := some task, is_generating := true })
  else
    (none, cs.2)

/-- `update_progress` (generation_state.py lines 140-145): clamp into
[0, 1] and update the current task if one exists. -/
def update_progress (progress : ℚ) (s : GenSessionState) : GenSessionState :=
  match s.current_task with
  | some task =>
    { s with current_task := some { task with progress := min (max progress 0) 1 } }
  | none => s

/-- Python truthiness of the optional `error` string argument
(`if error:` in `complete_generation`). -/
def strTruthy : Option String → Bool
  | none => false
  | some s => s != ""

/-- `complete_generation` (generation_state.py lines 147-182). -/
def complete_generation (result : Option Nat) (error : Option String) (now : ℚ)
    (s : GenSessionState) : GenSessionState :=
  match s.current_task with
  | some task =>
    let task1 := { task with completed_at := some now, progress := 1, result := result }
    let task2 :=
      if strTruthy error then
        { task1 with status := GenerationStatus.failed, error := error }
      else if task1.cancelled then
        { task1 with status := GenerationStatus.cancelled }
      else
        { task1 with status := GenerationStatus.completed }
    { s with generation_history := (task2 :: s.generation_history).take 20,
             is_generating := false, current_task := none }
  | none =>
    { s with is_generating := false, current_task := none }

/-- The coupling the module maintains between the `is_generating` flag (the
field `can_start_generation` reads) and the current-task slot: the flag is
set exactly when a task occupies the slot.  It holds for the initial session
and is preserved by `start_generation`, `update_progress` and
`complete_generation`, so every reachable session satisfies it. -/
def gen_state_inv (s : GenSessionState) : Prop :=
  s.is_generating = s.current_task.isSome

theorem gen_state_inv_init : gen_state_inv initGenSession := rfl

theorem gen_state_inv_start (prompt mode resolution task_id : String) (now : ℚ)
    (s : GenSessionState) (h : gen_state_inv s) :
    gen_state_inv (start_generation prompt mode resolution task_id now s).2 := by
  unfold gen_state_inv at *
  by_cases hg : s.is_generating
  · simp [start_generation, can_start_generation, hg]
    exact h.symm.trans hg
  · simp [start_generation, can_start_generation, hg]

theorem gen_state_inv_update (p : ℚ) (s : GenSessionState) (h : gen_state_inv s) :
    gen_state_inv (update_progress p s) := by
  unfold gen_state_inv at *
  cases hc : s.current_task <;> simp [update_progress, hc] <;> simp [hc] at h <;> exact h

theorem gen_state_inv_complete (result : Option Nat) (error : Option String)
    (now : ℚ) (s : GenSessionState) :
    gen_state_inv (complete_generation result error now s) := by
  unfold gen_state_inv
  cases hc : s.current_task <;> simp [complete_generation, hc]

example :
    (start_generation "p" "basic" "4K" "id1" 0 initGenSession).1.map
      GenerationTask.estimated_duration = some 18 := by decide

/- ### Generation state theorems -/

/-- Claim C1: single-flight.  From a session whose current-task slot is
empty (and whose flag agrees with the slot, as in every reachable session),
`start_generation` returns a new task and marks the session generating; a
second `start_generation` before any `complete_generation` returns `none`
and leaves the session unchanged, so at most one task is in flight. -/
theorem single_flight_start (p m r tid p2 m2 r2 tid2 : String) (now now2 : ℚ)
    (s : GenSessionState) (hinv : gen_state_inv s)
    (hnone : s.current_task = none) :
    ∃ t, start_generation p m r tid now s =
        (some t, { s with current_task := some t, is_generating := true }) ∧
      start_generation p2 m2 r2 tid2 now2
          { s with current_task := some t, is_generating := true } =
        (none, { s with current_task := some t, is_generating := true }) := by
  have hg : s.is_generating = false := by
    unfold gen_state_inv at hinv
    rw [hnone] at hinv
    simpa using hinv
  refine ⟨{ task_id := tid, prompt := p, mode := m,
            status := GenerationStatus.generating, created_at := now,
            started_at := some now, completed_at := none, progress := 0,
            estimated_duration := ESTIMATED_TIMES r, error := none,
            result := none, cancelled := false }, ?_, ?_⟩
  · simp [start_generation, can_start_generation, hg]
  · simp [start_generation, can_start_generation]

/-- Witness for `single_flight_start` on the initial session. -/
theorem single_flight_start_witness :
    ∃ t, start_generation "p" "basic" "1K" "id1" 0 initGenSession =
        (some t, { initGenSession with current_task := some t, is_generating := true }) ∧
      start_generation "q" "basic" "1K" "id2" 1
          { initGenSession with current_task := some t, is_generating := true } =
        (none, { initGenSession with current_task := some t, is_generating := true }) :=
  single_flight_start "p" "basic" "1K" "id1" "q" "basic" "1K" "id2" 0 1
    initGenSession rfl rfl

/-- Claim C6: `update_progress` stores `min (max progress 0) 1`, a value in
[0, 1], on the current task; and whatever the prior progress was,
`complete_generation` puts the completed task at the head of the history
with progress exactly 1. -/
theorem progress_clamp_complete (p : ℚ) (s : GenSessionState)
    (t : GenerationTask) (h : s.current_task = some t)
    (result : Option Nat) (error : Option String) (now : ℚ) :
    ((update_progress p s).current_task =
        some { t with progress := min (max p 0) 1 } ∧
      (0:ℚ) ≤ min (max p 0) 1 ∧ min (max p 0) 1 ≤ 1) ∧
    (∃ t2, (complete_generation result error now s).generation_history.head? =
        some t2 ∧ t2.progress = 1) := by
  refine ⟨⟨?_, ?_, ?_⟩, ?_⟩
  · simp [update_progress, h]
  · exact le_min (le_max_right p 0) zero_le_one
  · exact min_le_right _ 1
  · unfold complete_generation
    rw [h]
    by_cases he : strTruthy error
    · simp only [he, if_true]
      exact ⟨_, rfl, rfl⟩
    · by_cases hc : t.cancelled
      · simp only [he, hc, if_false, if_true, Bool.false_eq_true]
        exact ⟨_, rfl, rfl⟩
      · simp only [he, hc, if_false, Bool.false_eq_true]
        exact ⟨_, rfl, rfl⟩

/-- A concrete in-flight task, as built by `start_generation`. -/
def sampleTask : GenerationTask :=
  { task_id := "t1", prompt := "a cat", mode := "basic",
    status := GenerationStatus.generating, created_at := 0,
    started_at := some 0, completed_at := none, progress := 0,
    estimated_duration := 8, error := none, result := none,
    cancelled := false }

/-- A concrete session with a task occupying the in-flight slot. -/
def sampleBusySession : GenSessionState :=
  { current_task := some sampleTask, generation_history := [],
    is_generating := true }

/-- Witness for `progress_clamp_complete`: an out-of-range fraction (5) is
clamped to 1, and completion puts progress 1 at the head of history. -/
theorem progress_clamp_complete_witness :
    ((update_progress 5 sampleBusySession).current_task =
        some { sampleTask with progress := min (max (5:ℚ) 0) 1 } ∧
      (0:ℚ) ≤ min (max (5:ℚ) 0) 1 ∧ min (max (5:ℚ) 0) 1 ≤ 1) ∧
    (∃ t2, (complete_generation none none 7 sampleBusySession).generation_history.head? =
        some t2 ∧ t2.progress = 1) :=
  progress_clamp_complete 5 sampleBusySession sampleTask rfl none none 7

/-- Claim C9: `can_start_generation` returns
`(false, "generation_in_progress")` exactly when a task occupies the
in-flight slot (the flag and the slot agree in every reachable session),
`(true, "")` otherwise, and returns the session state unchanged: it writes
nothing. -/
theorem can_start_pure_read (s : GenSessionState) (h : gen_state_inv s) :
    can_start_generation s =
      ((if s.current_task.isSome then (false, "generation_in_progress")
        else (true, "")), s) := by
  unfold gen_state_inv at h
  unfold can_start_generation
  rw [h]
  cases s.current_task.isSome <;> simp

/-- Witness for `can_start_pure_read` on a busy session. -/
theorem can_start_pure_read_witness :
    can_start_generation sampleBusySession =
      ((false, "generation_in_progress"), sampleBusySession) := by
  have h := can_start_pure_read sampleBusySession rfl
  simpa using h

/- ### Trial quota ledger (src/services/trial_quota.py) -/

/-- `QuotaConfig` dataclass (trial_quota.py lines 14-22). -/
structure QuotaConfig where
  cost : ℤ
  daily_limit : ℤ
  display_name : String
  deriving DecidableEq

/-- `MANUAL_QUOTA_CONFIGS` with the environment defaults
(trial_quota.py lines 49-85). -/
def MANUAL_QUOTA_CONFIGS : List (String × QuotaConfig) :=
  [("basic_1k", { cost := 1, daily_limit := 30, display_name := "Basic (1K/2K)" }),
   ("basic_4k", { cost := 3, daily_limit := 10, display_name := "Basic (4K)" }),
   ("chat",     { cost := 1, daily_limit := 20, display_name := "Chat" }),
   ("batch_1k", { cost := 1, daily_limit := 15, display_name := "Batch (1K/2K)" }),
   ("batch_4k", { cost := 3, daily_limit := 5,  display_name := "Batch (4K)" }),
   ("search",   { cost := 2, daily_limit := 15, display_name := "Search" }),
   ("blend",    { cost := 2, daily_limit := 10, display_name := "Blend/Style" })]

/-- Default `TRIAL_GLOBAL_QUOTA` (trial_quota.py line 27). -/
def GLOBAL_DAILY_QUOTA : ℤ := 50

/-- Default `TRIAL_COOLDOWN_SECONDS` (trial_quota.py line 33). -/
def GENERATION_COOLDOWN : ℚ := 3

/-- `get_mode_key` (trial_quota.py lines 336-354). -/
def get_mode_key (mode : String) (resolution : String) : String :=
  if mode = "basic" then
    (if resolution = "4K" then "basic_4k" else "basic_1k")
  else if mode = "batch" then
    (if resolution = "4K" then "batch_4k" else "batch_1k")
  else if mode = "blend" ∨ mode = "style" then
    "blend"
  else
    mode

/-- The session-fallback ledger entry `st.session_state.trial_quota_data`
(trial_quota.py lines 212-220): the date stamp, the global points used, the
per-mode-key unit counts (a dict, as an association list) and the
`time.time()` stamp of the last consumption. -/
structure QuotaData where
  date : String
  global_used : ℤ
  mode_usage : List (String × ℤ)
  last_generation : ℚ
  deriving DecidableEq

/-- `_get_empty_quota_data` (trial_quota.py lines 281-288). -/
def emptyQuotaData (today : String) : QuotaData :=
  { date := today, global_used := 0, mode_usage := [], last_generation := 0 }

/-- `QUOTA_CONFIGS.get(mode_key)`: dict lookup on an association list. -/
def lookupConfig (configs : List (String × QuotaConfig)) (k : String) :
    Option QuotaConfig :=
  (configs.find? (fun p => p.1 == k)).map Prod.snd

/-- `mode_usage.get(mode_key, 0)`: dict lookup defaulting to 0. -/
def lookupUsage (usage : List (String × ℤ)) (k : String) : ℤ :=
  (((usage.find? (fun p => p.1 == k)).map Prod.snd)).getD 0

/-- `mode_usage[mode_key] = v`: dict update on an association list. -/
def setUsage (usage : List (String × ℤ)) (k : String) (v : ℤ) :
    List (String × ℤ) :=
  if usage.any (fun p => p.1 == k) then
    usage.map (fun p => if p.1 == k then (k, v) else p)
  else
    usage ++ [(k, v)]

/-- `_load_from_session` (trial_quota.py lines 237-253): returns the loaded
entry and the (possibly reset) stored entry; on a date change the entry is
reset for the new day and written back. -/
def loadFromSession (today : String) (stored : QuotaData) :
    QuotaData × QuotaData :=
  if stored.date ≠ today then
    let d := emptyQuotaData today
    (d, d)
  else
    (stored, stored)

/-- Python `int()` truncation toward zero, for the cooldown message. -/
def pyTruncInt (q : ℚ) : ℤ :=
  if 0 ≤ q then ⌊q⌋ else ⌈q⌉

/-- A value of the `quota_info` dict returned by `check_quota`. -/
inductive InfoVal where
  | int (z : ℤ)
  | str (s : String)
  deriving DecidableEq

/-- `check_quota` (trial_quota.py lines 356-428) over the session-fallback
store.  Parameters `configs`, `globalQuota` and `cooldown` are the
environment-loaded `QUOTA_CONFIGS`, `GLOBAL_DAILY_QUOTA` and
`GENERATION_COOLDOWN`; `today` is the current UTC date string and `now` the
current `time.time()`.  Returns `((can_generate, reason, quota_info),
new_stored_entry)`. -/
def check_quota (configs : List (String × QuotaConfig)) (globalQuota : ℤ)
    (cooldown : ℚ) (today : String) (now : ℚ) (stored : QuotaData)
    (mode resolution : String) (count : ℤ) :
    (Bool × String × List (String × InfoVal)) × QuotaData :=
  let mk := get_mode_key mode resolution
  match lookupConfig configs mk with
  | none => ((false, "Invalid generation mode", []), stored)
  | some config =>
    let ld := loadFromSession today stored
    let data := ld.1
    let total_cost := config.cost * count
    if now - data.last_generation < cooldown then
      let remaining := pyTruncInt (cooldown - (now - data.last_generation))
      ((false, "Please wait " ++ toString remaining ++ "s before next generation",
        []), ld.2)
    else
      let global_used := data.global_used
      let global_remaining := globalQuota - global_used
      if total_cost > global_remaining then
        ((false, "Daily global quota exceeded (" ++ toString global_used ++ "/" ++
            toString globalQuota ++ " used)",
          [("global_used", InfoVal.int global_used),
           ("global_limit", InfoVal.int globalQuota),
           ("global_remaining", InfoVal.int global_remaining)]), ld.2)
      else
        let mode_used := lookupUsage data.mode_usage mk
        let mode_remaining := config.daily_limit - mode_used
        if count > mode_remaining then
          ((false, config.display_name ++ " daily limit exceeded (" ++
              toString mode_used ++ "/" ++ toString config.daily_limit ++ " used)",
            [("mode", InfoVal.str config.display_name),
             ("mode_used", InfoVal.int mode_used),
             ("mode_limit", InfoVal.int config.daily_limit),
             ("mode_remaining", InfoVal.int mode_remaining)]), ld.2)
        else
          ((true, "OK",
            [("global_used", InfoVal.int global_used),
             ("global_limit", InfoVal.int globalQuota),
             ("global_remaining", InfoVal.int global_remaining),
             ("mode", InfoVal.str config.display_name),
             ("mode_used", InfoVal.int mode_used),
             ("mode_limit", InfoVal.int config.daily_limit),
             ("mode_remaining", InfoVal.int mode_remaining),
             ("cost", InfoVal.int total_cost)]), ld.2)

/-- `consume_quota` (trial_quota.py lines 430-470) over the session-fallback
store, whose `_save_to_session` always succeeds.  Returns the save result
and the stored entry after the call. -/
def consume_quota (configs : List (String × QuotaConfig)) (today : String)
    (now : ℚ) (stored : QuotaData) (mode resolution : String) (count : ℤ) :
    Bool × QuotaData :=
  let mk := get_mode_key mode resolution
  match lookupConfig configs mk with
  | none => (false, stored)
  | some config =>
    let data := (loadFromSession today stored).1
    let total_cost := config.cost * count
    let data1 := { data with global_used := data.global_used + total_cost }
    let data2 := { data1 with
      mode_usage := setUsage data1.mode_usage mk (lookupUsage data1.mode_usage mk + count) }
    let data3 := { data2 with last_generation := now }
    (true, data3)

example : lookupConfig MANUAL_QUOTA_CONFIGS (get_mode_key "basic" "4K") =
    some { cost := 3, daily_limit := 10, display_name := "Basic (4K)" } := by decide
example :
    (consume_quota MANUAL_QUOTA_CONFIGS "2025-01-01" 50
      (emptyQuotaData "2025-01-01") "basic" "4K" 2).2.global_used = 6 := by
  have h : lookupConfig MANUAL_QUOTA_CONFIGS "basic_4k" =
      some { cost := 3, daily_limit := 10, display_name := "Basic (4K)" } := by decide
  norm_num [consume_quota, loadFromSession, emptyQuotaData, get_mode_key, h]

/- ### Quota theorems -/

/-- Claim C8: the mode-key mapping sends `basic`+`4K` to `basic_4k` and
`basic`+any other resolution to `basic_1k`; `batch`+`4K` to `batch_4k` and
`batch`+other to `batch_1k`; `blend` and `style` to `blend` regardless of
resolution; and `chat` and `search` to themselves. -/
theorem mode_key_spec (resolution : String) (hres : resolution ≠ "4K") :
    get_mode_key "basic" "4K" = "basic_4k" ∧
    get_mode_key "basic" resolution = "basic_1k" ∧
    get_mode_key "batch" "4K" = "batch_4k" ∧
    get_mode_key "batch" resolution = "batch_1k" ∧
    (∀ r, get_mode_key "blend" r = "blend") ∧
    (∀ r, get_mode_key "style" r = "blend") ∧
    (∀ r, get_mode_key "chat" r = "chat") ∧
    (∀ r, get_mode_key "search" r = "search") := by
  refine ⟨rfl, ?_, rfl, ?_, fun r => rfl, fun r => rfl, fun r => rfl, fun r => rfl⟩
  · simp [get_mode_key, hres]
  · simp [get_mode_key, hres]

/-- Witness for `mode_key_spec` at resolution "1K". -/
theorem mode_key_spec_witness :
    get_mode_key "basic" "1K" = "basic_1k" ∧ get_mode_key "batch" "1K" = "batch_1k" := by
  have h := mode_key_spec "1K" (by decide)
  exact ⟨h.2.1, h.2.2.2.1⟩

/-- Claim C10 (implicit): when the resolved mode key has no entry in the
quota configuration, `consume_quota` returns `False` and leaves the stored
ledger entry entirely unchanged — no counter incremented, no timestamp
stamped, nothing persisted. -/
theorem consume_unknown_mode_noop (configs : List (String × QuotaConfig))
    (today : String) (now : ℚ) (stored : QuotaData) (mode resolution : String)
    (count : ℤ)
    (h : lookupConfig configs (get_mode_key mode resolution) = none) :
    consume_quota configs today now stored mode resolution count = (false, stored) := by
  simp [consume_quota, h]

/-- Witness for `consume_unknown_mode_noop` at the unconfigured mode
"video". -/
theorem consume_unknown_mode_noop_witness :
    consume_quota MANUAL_QUOTA_CONFIGS "2025-01-01" 42
      (emptyQuotaData "2025-01-01") "video" "1K" 1 =
    (false, emptyQuotaData "2025-01-01") :=
  consume_unknown_mode_noop MANUAL_QUOTA_CONFIGS "2025-01-01" 42
    (emptyQuotaData "2025-01-01") "video" "1K" 1 (by decide)

/-- Claim C3: with the cooldown elapsed and a configured mode,
`check_quota` allows exactly when `cost × count` fits in the remaining
global quota and `count` fits in the remaining per-mode quota; otherwise it
denies with the global- or the mode-quota-exceeded reason. -/
theorem check_quota_caps (configs : List (String × QuotaConfig)) (globalQuota : ℤ)
    (cooldown : ℚ) (today : String) (now : ℚ) (stored : QuotaData)
    (mode resolution : String) (count : ℤ) (cfg : QuotaConfig)
    (hcfg : lookupConfig configs (get_mode_key mode resolution) = some cfg)
    (hdate : stored.date = today)
    (hcool : cooldown ≤ now - stored.last_generation) :
    ((check_quota configs globalQuota cooldown today now stored
        mode resolution count).1.1 = true ↔
      (cfg.cost * count ≤ globalQuota - stored.global_used ∧
       count ≤ cfg.daily_limit -
         lookupUsage stored.mode_usage (get_mode_key mode resolution))) ∧
    ((check_quota configs globalQuota cooldown today now stored
        mode resolution count).1.1 = false →
      (check_quota configs globalQuota cooldown today now stored
          mode resolution count).1.2.1 =
        "Daily global quota exceeded (" ++ toString stored.global_used ++ "/" ++
          toString globalQuota ++ " used)" ∨
      (check_quota configs globalQuota cooldown today now stored
          mode resolution count).1.2.1 =
        cfg.display_name ++ " daily limit exceeded (" ++
          toString (lookupUsage stored.mode_usage (get_mode_key mode resolution)) ++
          "/" ++ toString cfg.daily_limit ++ " used)") := by
  have hload : loadFromSession today stored = (stored, stored) := by
    simp [loadFromSession, hdate]
  have hnc : ¬(now - stored.last_generation < cooldown) := not_lt.mpr hcool
  simp only [check_quota, hcfg, hload]
  rw [if_neg hnc]
  by_cases hg : cfg.cost * count > globalQuota - stored.global_used
  · rw [if_pos hg]
    refine ⟨?_, fun _ => Or.inl rfl⟩
    simp only [Bool.false_eq_true, false_iff]
    rintro ⟨h1, _⟩
    exact absurd h1 (not_le.mpr hg)
  · rw [if_neg hg]
    by_cases hm : count > cfg.daily_limit -
        lookupUsage stored.mode_usage (get_mode_key mode resolution)
    · rw [if_pos hm]
      refine ⟨?_, fun _ => Or.inr rfl⟩
      simp only [Bool.false_eq_true, false_iff]
      rintro ⟨_, h2⟩
      exact absurd h2 (not_le.mpr hm)
    · rw [if_neg hm]
      exact ⟨by simp [not_lt.mp hg, not_lt.mp hm], by simp⟩

/-- Witness for `check_quota_caps`: the spec's own numbers — global limit
10, cost 3 (mode `basic`/`4K`), 6 points used: count 2 (cost 6 > 4 left)
denies, count 1 (cost 3 ≤ 4 left) allows. -/
theorem check_quota_caps_witness :
    (check_quota MANUAL_QUOTA_CONFIGS 10 3 "2025-01-01" 100
      { date := "2025-01-01", global_used := 6, mode_usage := [],
        last_generation := 0 } "basic" "4K" 2).1.1 = false ∧
    (check_quota MANUAL_QUOTA_CONFIGS 10 3 "2025-01-01" 100
      { date := "2025-01-01", global_used := 6, mode_usage := [],
        last_generation := 0 } "basic" "4K" 1).1.1 = true := by
  have hcfg : lookupConfig MANUAL_QUOTA_CONFIGS (get_mode_key "basic" "4K") =
      some { cost := 3, daily_limit := 10, display_name := "Basic (4K)" } := by decide
  have h2 := (check_quota_caps MANUAL_QUOTA_CONFIGS 10 3 "2025-01-01" 100
    { date := "2025-01-01", global_used := 6, mode_usage := [], last_generation := 0 }
    "basic" "4K" 2 _ hcfg rfl (by norm_num)).1
  have h1 := (check_quota_caps MANUAL_QUOTA_CONFIGS 10 3 "2025-01-01" 100
    { date := "2025-01-01", global_used := 6, mode_usage := [], last_generation := 0 }
    "basic" "4K" 1 _ hcfg rfl (by norm_num)).1
  constructor
  · cases hb : (check_quota MANUAL_QUOTA_CONFIGS 10 3 "2025-01-01" 100
      { date := "2025-01-01", global_used := 6, mode_usage := [],
        last_generation := 0 } "basic" "4K" 2).1.1 with
    | false => rfl
    | true => exact absurd (h2.mp hb) (by decide)
  · exact h1.mpr (by decide)

/-- Claim C4: a ledger entry dated differently from the current UTC date is
loaded (and written back) as a fresh entry — zero global and per-mode
counters, `last_generation` cleared, dated today — and the entry persisted
by the next successful `consume_quota` is dated today. -/
theorem quota_day_rollover (configs : List (String × QuotaConfig)) (today : String)
    (stored : QuotaData) (mode resolution : String) (count : ℤ) (now : ℚ)
    (cfg : QuotaConfig)
    (hnew : stored.date ≠ today)
    (hcfg : lookupConfig configs (get_mode_key mode resolution) = some cfg) :
    loadFromSession today stored = (emptyQuotaData today, emptyQuotaData today) ∧
    (emptyQuotaData today).global_used = 0 ∧
    (emptyQuotaData today).mode_usage = [] ∧
    (emptyQuotaData today).last_generation = 0 ∧
    (consume_quota configs today now stored mode resolution count).2.date = today := by
  have hload : loadFromSession today stored =
      (emptyQuotaData today, emptyQuotaData today) := by
    simp [loadFromSession, hnew]
  refine ⟨hload, rfl, rfl, rfl, ?_⟩
  simp [consume_quota, hcfg, hload, emptyQuotaData]

/-- Witness for `quota_day_rollover` on a yesterday-dated entry. -/
theorem quota_day_rollover_witness :
    loadFromSession "2025-01-02"
      { date := "2025-01-01", global_used := 9, mode_usage := [("chat", 4)],
        last_generation := 77 } =
      (emptyQuotaData "2025-01-02", emptyQuotaData "2025-01-02") ∧
    (emptyQuotaData "2025-01-02").global_used = 0 ∧
    (emptyQuotaData "2025-01-02").mode_usage = [] ∧
    (emptyQuotaData "2025-01-02").last_generation = 0 ∧
    (consume_quota MANUAL_QUOTA_CONFIGS "2025-01-02" 99
      { date := "2025-01-01", global_used := 9, mode_usage := [("chat", 4)],
        last_generation := 77 } "chat" "1K" 1).2.date = "2025-01-02" :=
  quota_day_rollover MANUAL_QUOTA_CONFIGS "2025-01-02"
    { date := "2025-01-01", global_used := 9, mode_usage := [("chat", 4)],
      last_generation := 77 } "chat" "1K" 1 99
    { cost := 1, daily_limit := 20, display_name := "Chat" } (by decide) (by decide)

/-- Claim C5: with a same-day ledger entry and a configured mode, a
`check_quota` strictly inside the cooldown window after the recorded
`last_generation` denies with the remaining-wait reason regardless of
available quota; once the cooldown has elapsed it is not denied for
cooldown — it allows whenever the quota caps permit.  `consume_quota`
records `now` as the new `last_generation`. -/
theorem cooldown_enforced (configs : List (String × QuotaConfig)) (globalQuota : ℤ)
    (cooldown : ℚ) (today : String) (now : ℚ) (stored : QuotaData)
    (mode resolution : String) (count : ℤ) (cfg : QuotaConfig)
    (hcfg : lookupConfig configs (get_mode_key mode resolution) = some cfg)
    (hdate : stored.date = today) :
    (now - stored.last_generation < cooldown →
      (check_quota configs globalQuota cooldown today now stored
        mode resolution count).1.1 = false ∧
      (check_quota configs globalQuota cooldown today now stored
          mode resolution count).1.2.1 =
        "Please wait " ++
          toString (pyTruncInt (cooldown - (now - stored.last_generation))) ++
          "s before next generation") ∧
    (cooldown ≤ now - stored.last_generation →
      cfg.cost * count ≤ globalQuota - stored.global_used →
      count ≤ cfg.daily_limit -
        lookupUsage stored.mode_usage (get_mode_key mode resolution) →
      (check_quota configs globalQuota cooldown today now stored
        mode resolution count).1.1 = true) ∧
    (consume_quota configs today now stored mode resolution count).2.last_generation
      = now := by
  have hload : loadFromSession today stored = (stored, stored) := by
    simp [loadFromSession, hdate]
  refine ⟨?_, ?_, ?_⟩
  · intro hlt
    simp only [check_quota, hcfg, hload]
    rw [if_pos hlt]
    exact ⟨rfl, rfl⟩
  · intro hge h1 h2
    simp only [check_quota, hcfg, hload]
    rw [if_neg (not_lt.mpr hge), if_neg (not_lt.mpr h1), if_neg (not_lt.mpr h2)]
  · simp [consume_quota, hcfg, hload]

/-- Witness for `cooldown_enforced`: 1 second after a consumption the call
denies; 3 seconds after, it allows. -/
theorem cooldown_enforced_witness :
    (check_quota MANUAL_QUOTA_CONFIGS 50 3 "2025-01-01" 101
      { date := "2025-01-01", global_used := 0, mode_usage := [],
        last_generation := 100 } "basic" "1K" 1).1.1 = false ∧
    (check_quota MANUAL_QUOTA_CONFIGS 50 3 "2025-01-01" 103
      { date := "2025-01-01", global_used := 0, mode_usage := [],
        last_generation := 100 } "basic" "1K" 1).1.1 = true := by
  have hcfg : lookupConfig MANUAL_QUOTA_CONFIGS (get_mode_key "basic" "1K") =
      some { cost := 1, daily_limit := 30, display_name := "Basic (1K/2K)" } := by
    decide
  constructor
  · exact ((cooldown_enforced MANUAL_QUOTA_CONFIGS 50 3 "2025-01-01" 101
      { date := "2025-01-01", global_used := 0, mode_usage := [],
        last_generation := 100 } "basic" "1K" 1 _ hcfg rfl).1 (by norm_num)).1
  · exact (cooldown_enforced MANUAL_QUOTA_CONFIGS 50 3 "2025-01-01" 103
      { date := "2025-01-01", global_used := 0, mode_usage := [],
        last_generation := 100 } "basic" "1K" 1 _ hcfg rfl).2.1
      (by norm_num) (by decide) (by decide)
